import Mathlib

set_option maxRecDepth 8192

/-!
Shallow embedding of the record-access layer of `MtechGuy/Advance-web-Test-1`
(`internal/data/comments.go`, `cmd/api/review.go`, `cmd/api/routes.go`, and the
products/reviews DDL), together with theorems settling the frozen claims about
its specification.

Modelling conventions:
* The `comments` table is a `List Row`; a storage boundary call may be given a
  fault-injection argument `flt : Option Nat` (`none` = the storage engine
  answers normally, `some code` = the call fails with an opaque storage error
  carrying `code`).
* Go errors are the inductive `GoError`; `sql.ErrNoRows` is `errSqlNoRows`,
  `data.ErrRecordNotFound` is `errRecordNotFound`, any other storage error is
  `errOther code`.
* Functions that can return before touching storage carry an extra `Bool`
  result recording whether a storage query was issued; the list handler instead
  records the SQL text of the query it executed, if any.
* Go `len` on strings is byte length, embedded as `String.utf8ByteSize`.
* The source declares the `Review` struct in two revisions (a content/author
  one in `internal/data/comments.go` and a product/rating one used by
  `cmd/api/review.go`); the embedding takes the union of the two field sets so
  both the data layer and the handlers can be stated over one type.
-/

/-- Error values returned by the data layer: `data.ErrRecordNotFound`,
`sql.ErrNoRows`, and any other storage-layer error (opaque code). -/
inductive GoError where
  | errRecordNotFound
  | errSqlNoRows
  | errOther (code : Nat)
  deriving DecidableEq, Repr

/-- One row of the `comments` table (columns `id`, `created_at`, `content`,
`author`, `version`), the single table every query in
`internal/data/comments.go` names. -/
structure Row where
  id : Int
  created_at : Int
  content : String
  author : String
  version : Int
  deriving DecidableEq, Repr

/-- The `Review` struct: union of the fields of its two revisions in the
source (`ID`/`Content`/`Author`/`CreatedAt`/`Version` from
`internal/data/comments.go`; `ProductID`/`Rating`/`ReviewText`/`HelpfulCount`
from the handlers in `cmd/api/review.go`). -/
structure Review where
  ID : Int := 0
  ProductID : Int := 0
  Content : String := ""
  Author : String := ""
  Rating : Int := 0
  ReviewText : String := ""
  HelpfulCount : Int := 0
  CreatedAt : Int := 0
  Version : Int := 0
  deriving DecidableEq, Repr

/-- The `Product` struct of `internal/data/comments.go` (second half of the
file): identical field set to the data-layer `Review`. -/
structure Product where
  ID : Int := 0
  Content : String := ""
  Author : String := ""
  CreatedAt : Int := 0
  Version : Int := 0
  deriving DecidableEq, Repr

/-- Modelled from the spec: the `internal/validator` package is not under
`src/`. A validator accumulates field-scoped errors; per the spec the
validation steps are simple predicate checks reporting a field-scoped error. -/
abbrev Validator := List (String × String)

/-- Modelled from the spec (`internal/validator` not under `src/`): record an
error for `key` unless one is already present for that key. -/
def Validator.addError (v : Validator) (key message : String) : Validator :=
  if (List.find? (fun p => p.1 == key) v).isSome then v else v ++ [(key, message)]

/-- Modelled from the spec (`internal/validator` not under `src/`): `Check`
records a field-scoped error when the condition is false. -/
def Validator.check (v : Validator) (ok : Bool) (key message : String) : Validator :=
  if ok then v else v.addError key message

/-- Modelled from the spec (`internal/validator` not under `src/`): a request
passes validation when no field-scoped error was recorded. -/
def Validator.isEmpty (v : Validator) : Bool :=
  match v with
  | [] => true
  | _ => false

/-- `ValidateReview` (internal/data/comments.go lines 27-36): checks that
content and author are nonempty and within 100 / 25 bytes. It inspects no
other field of the review. -/
def ValidateReview (v : Validator) (review : Review) : Validator :=
  ((((v.check (review.Content != "") "content" "must be provided").check
      (review.Author != "") "author" "must be provided").check
      (review.Content.utf8ByteSize <= 100) "content" "must not be more than 100 bytes long").check
      (review.Author.utf8ByteSize <= 25) "author" "must not be more than 25 bytes long")

/-- Modelled from the spec: `internal/data/filters.go` is not under `src/`.
Filter input shape per spec section 6: search term(s), page, page size, sort
key, plus the caller-declared sort safelist. The Go field `Sort` is a Lean
keyword, so it is embedded as `sort`. -/
structure Filters where
  Page : Int
  PageSize : Int
  sort : String
  SortSafeList : List String
  deriving DecidableEq, Repr

/-- Modelled from the spec (section 4.1): validation fails, field-scoped, when
page < 1, page > 10,000,000, page_size < 1, page_size > 100, or the requested
sort key is not present in the safelist. -/
def ValidateFilters (v : Validator) (f : Filters) : Validator :=
  ((((v.check (decide (f.Page > 0)) "page" "must be greater than zero").check
      (decide (f.Page <= 10000000)) "page" "must be a maximum of 10 million").check
      (decide (f.PageSize > 0)) "page_size" "must be greater than zero").check
      (decide (f.PageSize <= 100)) "page_size" "must be a maximum of 100").check
      (f.SortSafeList.contains f.sort) "sort" "invalid sort value"

/-- Test for a leading "-" on a sort key (computed on the character list so
that concrete instances evaluate by reduction). -/
def startsWithDash (s : String) : Bool :=
  match s.data with
  | [] => false
  | c :: _ => c == '-'

/-- Remove one leading "-" from a sort key (Go `strings.TrimPrefix(s, "-")`). -/
def trimLeadingDash (s : String) : String :=
  if startsWithDash s then String.mk (s.data.drop 1) else s

/-- Modelled from the spec (section 4.1, `filters.go` not under `src/`): the
bare column name emitted for the ORDER BY clause; the safelist membership
check is the only sanitization, and a key outside the safelist never yields a
column (the Go code panics there, embedded as `none`). -/
def Filters.sortColumn (f : Filters) : Option String :=
  if f.SortSafeList.contains f.sort then some (trimLeadingDash f.sort) else none

/-- Modelled from the spec (section 4.1): sort direction from the key's
leading character, a leading "-" means descending. -/
def Filters.sortDirection (f : Filters) : String :=
  if startsWithDash f.sort then "DESC" else "ASC"

/-- Modelled from the spec (section 4.1): `limit = page_size`, passed as a
bound parameter. -/
def Filters.limit (f : Filters) : Int := f.PageSize

/-- Modelled from the spec (section 4.1): `offset = (page - 1) * page_size`,
passed as a bound parameter. -/
def Filters.offset (f : Filters) : Int := (f.Page - 1) * f.PageSize

/-- Modelled from the spec (section 6): metadata output shape
`{current_page, page_size, first_page, last_page, total_records}`; the Go zero
value `Metadata{}` is all fields zero. -/
structure Metadata where
  CurrentPage : Int := 0
  PageSize : Int := 0
  FirstPage : Int := 0
  LastPage : Int := 0
  TotalRecords : Int := 0
  deriving DecidableEq, Repr

/-- Modelled from the spec (section 4.2, `calculateMetaData` not under
`src/`): for `totalRecords == 0` the all-zero metadata value; otherwise
`{currentPage: page, pageSize, firstPage: 1, lastPage: ceil(totalRecords /
pageSize), totalRecords}` (ceiling division written on integers; `/` is
Euclidean division, which agrees with the Go computation on the nonnegative
domain the spec gives). -/
def calculateMetaData (totalRecords page pageSize : Int) : Metadata :=
  if totalRecords == 0 then {} else
    { CurrentPage := page
      PageSize := pageSize
      FirstPage := 1
      LastPage := (totalRecords + pageSize - 1) / pageSize
      TotalRecords := totalRecords }

/-- SQL text of `InsertReview` (internal/data/comments.go lines 40-44),
byte-for-byte as the Go raw string literal. -/
def insertReviewQuery : String :=
  "\n\t\t INSERT INTO comments (content, author)\n\t\t VALUES ($1, $2)\n\t\t RETURNING id, created_at, version\n\t\t "

/-- SQL text of `InsertProduct` (internal/data/comments.go lines 236-240),
byte-for-byte as the Go raw string literal. -/
def insertProductQuery : String :=
  "\n\t\t INSERT INTO comments (content, author)\n\t\t VALUES ($1, $2)\n\t\t RETURNING id, created_at, version\n\t\t "

/-- SQL text of `GetReview` (internal/data/comments.go lines 68-72). -/
def getReviewQuery : String :=
  "\n\t\t SELECT id, created_at, content, author, version\n\t\t FROM comments\n\t\t WHERE id = $1\n\t   "

/-- SQL text of `GetProduct` (internal/data/comments.go lines 264-268). -/
def getProductQuery : String :=
  "\n\t\t SELECT id, created_at, content, author, version\n\t\t FROM comments\n\t\t WHERE id = $1\n\t   "

/-- SQL text of `UpdateReview` (internal/data/comments.go lines 103-108). -/
def updateReviewQuery : String :=
  "\n\t\t\tUPDATE comments\n\t\t\tSET content = $1, author = $2, version = version + 1\n\t\t\tWHERE id = $3\n\t\t\tRETURNING version \n\t\t\t"

/-- SQL text of `UpdateProduct` (internal/data/comments.go lines 299-304). -/
def updateProductQuery : String :=
  "\n\t\t\tUPDATE comments\n\t\t\tSET content = $1, author = $2, version = version + 1\n\t\t\tWHERE id = $3\n\t\t\tRETURNING version \n\t\t\t"

/-- SQL text of `DeleteReview` (internal/data/comments.go lines 125-128). -/
def deleteReviewQuery : String :=
  "\n        DELETE FROM comments\n        WHERE id = $1\n\t\t"

/-- SQL text of `DeleteProduct` (internal/data/comments.go lines 321-324). -/
def deleteProductQuery : String :=
  "\n        DELETE FROM comments\n        WHERE id = $1\n\t\t"

/-- SQL text of `GetAllReviews` (internal/data/comments.go lines 156-162):
the `fmt.Sprintf` result with the sort column and direction interpolated at
the two `%s` markers of the Go format string, byte-for-byte otherwise. -/
def getAllReviewsQuery (col dir : String) : String :=
  "\n\tSELECT COUNT(*) OVER(), id, created_at, content, author, version\n\tFROM comments\n\tWHERE (to_tsvector('simple', content) @@ plainto_tsquery('simple', $1) OR $1 = '') \n\t  AND (to_tsvector('simple', author) @@ plainto_tsquery('simple', $2) OR $2 = '') \n\tORDER BY " ++ col ++ " " ++ dir ++ ", id ASC \n\tLIMIT $3 OFFSET $4"

/-- SQL text of `GetAllProducts` (internal/data/comments.go lines 353-361):
the `fmt.Sprintf` result with the sort column and direction interpolated at
the two `%s` markers of the Go format string, byte-for-byte otherwise. -/
def getAllProductsQuery (col dir : String) : String :=
  "\n\tSELECT COUNT(*) OVER(), id, created_at, content, author, version\n\tFROM comments\n\tWHERE (to_tsvector('simple', content) @@\n\t\t  plainto_tsquery('simple', $1) OR $1 = '') \n\tAND (to_tsvector('simple', author) @@ \n\t\t plainto_tsquery('simple', $2) OR $2 = '') \n\tORDER BY " ++ col ++ " " ++ dir ++ ", id ASC \n\tLIMIT $3 OFFSET $4"

/-- Whitespace characters occurring in the query literals. -/
def isWsChar (c : Char) : Bool := c == ' ' || c == '\t' || c == '\n'

/-- Split a character list on whitespace into maximal non-whitespace tokens
(`acc` holds the current token, reversed). -/
def tokensAux : List Char → List Char → List String
  | [], acc => if acc.isEmpty then [] else [String.mk acc.reverse]
  | c :: cs, acc =>
    if isWsChar c then
      if acc.isEmpty then tokensAux cs []
      else String.mk acc.reverse :: tokensAux cs []
    else tokensAux cs (c :: acc)

/-- Token sequence of an SQL string: split on whitespace, drop empty pieces.
Two strings with the same tokens differ only in whitespace. -/
def sqlTokens (s : String) : List String :=
  tokensAux s.data []

/-- `SELECT ... WHERE id = $1` row fetch against the `comments` table, with
fault injection: the first row whose `id` matches, `sql.ErrNoRows` when none
does, or the injected storage error. -/
inductive RowResult (α : Type) where
  | ok (a : α)
  | noRows
  | fault (code : Nat)
  deriving DecidableEq, Repr

/-- Row lookup in the `comments` table (`WHERE id = $1`). -/
def findRow (db : List Row) (id : Int) : Option Row :=
  List.find? (fun r => r.id == id) db

/-- `QueryRowContext(...).Scan` of the single-row SELECT: fault if the storage
boundary fails, `noRows` if no row matches, else the matched row. -/
def queryRowById (db : List Row) (flt : Option Nat) (id : Int) : RowResult Row :=
  match flt with
  | some code => .fault code
  | none =>
    match findRow db id with
    | some r => .ok r
    | none => .noRows

/-- `GetReview` (internal/data/comments.go lines 62-98): `id < 1` is rejected
as `ErrRecordNotFound` before any query; `sql.ErrNoRows` maps to
`ErrRecordNotFound`; any other error is returned unchanged. The `Bool` result
records whether a storage query was issued. -/
def GetReview (db : List Row) (flt : Option Nat) (id : Int) :
    Except GoError Review × Bool :=
  if id < 1 then (.error .errRecordNotFound, false)
  else
    match queryRowById db flt id with
    | .fault code => (.error (.errOther code), true)
    | .noRows => (.error .errRecordNotFound, true)
    | .ok r =>
      (.ok { ID := r.id, CreatedAt := r.created_at, Content := r.content,
             Author := r.author, Version := r.version }, true)

/-- `GetProduct` (internal/data/comments.go lines 258-294): same control flow
as `GetReview`, over the same `comments` table. -/
def GetProduct (db : List Row) (flt : Option Nat) (id : Int) :
    Except GoError Product × Bool :=
  if id < 1 then (.error .errRecordNotFound, false)
  else
    match queryRowById db flt id with
    | .fault code => (.error (.errOther code), true)
    | .noRows => (.error .errRecordNotFound, true)
    | .ok r =>
      (.ok { ID := r.id, CreatedAt := r.created_at, Content := r.content,
             Author := r.author, Version := r.version }, true)

/-- Effect of `UPDATE comments SET content = $1, author = $2, version =
version + 1 WHERE id = $3 RETURNING version`: the new table, and the RETURNING
value (the updated row's incremented version) when a row matched. -/
def sqlUpdateById (db : List Row) (content author : String) (id : Int) :
    List Row × Option Int :=
  (db.map (fun r =>
      if r.id == id then
        { r with content := content, author := author, version := r.version + 1 }
      else r),
   (findRow db id).map (fun r => r.version + 1))

/-- `UpdateReview` (internal/data/comments.go lines 100-116): the WHERE clause
matches on `id` alone; `Scan` of the RETURNING row yields the new version, and
its error (including `sql.ErrNoRows` when zero rows matched) is returned
unchanged. On success the result carries the new table state and the review
with the incremented version. -/
def UpdateReview (db : List Row) (flt : Option Nat) (review : Review) :
    Except GoError (List Row × Review) :=
  match flt with
  | some code => .error (.errOther code)
  | none =>
    let upd := sqlUpdateById db review.Content review.Author review.ID
    match upd.2 with
    | some v => .ok (upd.1, { review with Version := v })
    | none => .error .errSqlNoRows

/-- `UpdateProduct` (internal/data/comments.go lines 296-312): identical
control flow and SQL as `UpdateReview`, over the same `comments` table. -/
def UpdateProduct (db : List Row) (flt : Option Nat) (product : Product) :
    Except GoError (List Row × Product) :=
  match flt with
  | some code => .error (.errOther code)
  | none =>
    let upd := sqlUpdateById db product.Content product.Author product.ID
    match upd.2 with
    | some v => .ok (upd.1, { product with Version := v })
    | none => .error .errSqlNoRows

/-- Effect of `DELETE FROM comments WHERE id = $1`: the new table and the
affected row count. -/
def sqlDeleteById (db : List Row) (id : Int) : List Row × Nat :=
  (db.filter (fun r => r.id != id), (db.filter (fun r => r.id == id)).length)

/-- `DeleteReview` (internal/data/comments.go lines 118-152): `id < 1` yields
`ErrRecordNotFound` before any query; zero affected rows yields
`ErrRecordNotFound`; otherwise the delete succeeds. The `Bool` result records
whether a storage query was issued. -/
def DeleteReview (db : List Row) (flt : Option Nat) (id : Int) :
    Except GoError (List Row) × Bool :=
  if id < 1 then (.error .errRecordNotFound, false)
  else
    match flt with
    | some code => (.error (.errOther code), true)
    | none =>
      let del := sqlDeleteById db id
      if del.2 == 0 then (.error .errRecordNotFound, true)
      else (.ok del.1, true)

/-- `DeleteProduct` (internal/data/comments.go lines 314-348): identical
control flow and SQL as `DeleteReview`, over the same `comments` table. -/
def DeleteProduct (db : List Row) (flt : Option Nat) (id : Int) :
    Except GoError (List Row) × Bool :=
  if id < 1 then (.error .errRecordNotFound, false)
  else
    match flt with
    | some code => (.error (.errOther code), true)
    | none =>
      let del := sqlDeleteById db id
      if del.2 == 0 then (.error .errRecordNotFound, true)
      else (.ok del.1, true)

/-- Modelled from the spec: the `comments` table DDL is not under `src/`; per
spec section 3, identity is generated by storage, the creation timestamp
defaults to now, and the version counter starts at 1. Effect of `INSERT INTO
comments (content, author) VALUES ($1, $2) RETURNING id, created_at,
version`. -/
def sqlInsertComments (db : List Row) (now : Int) (content author : String) :
    List Row × Row :=
  let newRow : Row :=
    { id := (db.foldl (fun m r => max m r.id) 0) + 1, created_at := now,
      content := content, author := author, version := 1 }
  (db ++ [newRow], newRow)

/-- `InsertReview` (internal/data/comments.go lines 38-59): runs the insert
and scans `id`, `created_at`, `version` back into the review. -/
def InsertReview (db : List Row) (flt : Option Nat) (now : Int) (review : Review) :
    Except GoError (List Row × Review) :=
  match flt with
  | some code => .error (.errOther code)
  | none =>
    let ins := sqlInsertComments db now review.Content review.Author
    .ok (ins.1, { review with ID := ins.2.id, CreatedAt := ins.2.created_at,
                              Version := ins.2.version })

/-- `InsertProduct` (internal/data/comments.go lines 234-255): identical SQL
and control flow as `InsertReview`, over the same `comments` table. -/
def InsertProduct (db : List Row) (flt : Option Nat) (now : Int) (product : Product) :
    Except GoError (List Row × Product) :=
  match flt with
  | some code => .error (.errOther code)
  | none =>
    let ins := sqlInsertComments db now product.Content product.Author
    .ok (ins.1, { product with ID := ins.2.id, CreatedAt := ins.2.created_at,
                               Version := ins.2.version })

/-- Comparison under the validated ORDER BY column: the `comments` table
columns the safelists can name are `id` and `author`. -/
def cmpByColumn (col : String) (a b : Row) : Ordering :=
  if col == "id" then compare a.id b.id
  else if col == "author" then compare a.author b.author
  else .eq

/-- Apply the ORDER BY direction: `DESC` reverses the column comparison. -/
def applyDirection (dir : String) (o : Ordering) : Ordering :=
  if dir == "DESC" then o.swap else o

/-- Full ORDER BY comparison `ORDER BY col dir, id ASC`: the validated column
and direction first, then the deterministic ascending-id tie-break. -/
def rowOrd (col dir : String) (a b : Row) : Ordering :=
  match applyDirection dir (cmpByColumn col a b) with
  | .eq => compare a.id b.id
  | o => o

/-- Boolean `le` for the ORDER BY comparison. -/
def rowLe (col dir : String) (a b : Row) : Bool :=
  match rowOrd col dir a b with
  | .gt => false
  | _ => true

/-- Stable insertion into a list sorted by `le`. -/
def insertSorted (le : Row → Row → Bool) (a : Row) : List Row → List Row
  | [] => [a]
  | b :: bs => if le a b then a :: b :: bs else b :: insertSorted le a bs

/-- Stable sort of the result set by `le` (the ORDER BY clause). -/
def sortRows (le : Row → Row → Bool) : List Row → List Row
  | [] => []
  | a :: as => insertSorted le a (sortRows le as)

/-- One free-text search predicate of the WHERE clause:
`(to_tsvector('simple', column) @@ plainto_tsquery('simple', $n) OR $n = '')`.
The text-search match itself (`tsm`) is the store's predicate, taken as a
parameter: the embedding fixes only the disjunction with the empty-term
test. -/
def tsFilterMatch (tsm : String → String → Bool) (column term : String) : Bool :=
  tsm column term || term == ""

/-- WHERE clause of the two GetAll queries: content predicate AND author
predicate. -/
def getAllWhere (tsm : String → String → Bool) (content author : String)
    (r : Row) : Bool :=
  tsFilterMatch tsm r.content content && tsFilterMatch tsm r.author author

/-- `GetAllReviews` (internal/data/comments.go lines 154-196): the query
filters by the WHERE clause, counts matches with `COUNT(*) OVER()`, sorts by
the validated column and direction with the ascending-id tie-break, and
applies LIMIT/OFFSET; the scan loop leaves `totalRecords = 0` when the page is
empty. `none` is the panic inside `sortColumn` on a sort key outside the
safelist; otherwise the result carries the SQL text of the executed query. -/
def GetAllReviews (tsm : String → String → Bool) (db : List Row) (flt : Option Nat)
    (content author : String) (filters : Filters) :
    Option (String × Except GoError (List Review × Metadata)) :=
  match filters.sortColumn with
  | none => none
  | some col =>
    let query := getAllReviewsQuery col filters.sortDirection
    match flt with
    | some code => some (query, .error (.errOther code))
    | none =>
      let matching := db.filter (getAllWhere tsm content author)
      let page := ((sortRows (rowLe col filters.sortDirection) matching).drop
        filters.offset.toNat).take filters.limit.toNat
      let totalRecords : Int := if page.isEmpty then 0 else matching.length
      some (query, .ok
        (page.map (fun r =>
          ({ ID := r.id, CreatedAt := r.created_at, Content := r.content,
             Author := r.author, Version := r.version } : Review)),
         calculateMetaData totalRecords filters.Page filters.PageSize))

/-- `GetAllProducts` (internal/data/comments.go lines 350-406): same pipeline
as `GetAllReviews` over the same `comments` table (its SQL text differs only
in whitespace). -/
def GetAllProducts (tsm : String → String → Bool) (db : List Row) (flt : Option Nat)
    (content author : String) (filters : Filters) :
    Option (String × Except GoError (List Product × Metadata)) :=
  match filters.sortColumn with
  | none => none
  | some col =>
    let query := getAllProductsQuery col filters.sortDirection
    match flt with
    | some code => some (query, .error (.errOther code))
    | none =>
      let matching := db.filter (getAllWhere tsm content author)
      let page := ((sortRows (rowLe col filters.sortDirection) matching).drop
        filters.offset.toNat).take filters.limit.toNat
      let totalRecords : Int := if page.isEmpty then 0 else matching.length
      some (query, .ok
        (page.map (fun r =>
          ({ ID := r.id, CreatedAt := r.created_at, Content := r.content,
             Author := r.author, Version := r.version } : Product)),
         calculateMetaData totalRecords filters.Page filters.PageSize))

/-- One row of the `products` table of the DDL (migration file, lines 1-11).
`average_rating DECIMAL(3,2)` is held in hundredths. -/
structure ProductRow where
  product_id : Int
  name : String := ""
  description : String := ""
  category : String := ""
  image_url : String := ""
  averageRatingHundredths : Int := 0
  created_at : Int := 0
  updated_at : Int := 0
  version : Int := 1
  deriving DecidableEq, Repr

/-- One row of the `reviews` table of the DDL (migration file, lines 14-23). -/
structure ReviewRow where
  review_id : Int
  product_id : Int
  rating : Int
  review_text : String := ""
  helpful_count : Int := 0
  created_at : Int := 0
  updated_at : Int := 0
  version : Int := 1
  deriving DecidableEq, Repr

/-- The two DDL tables (migration file): `products` and `reviews`. -/
structure SchemaState where
  products : List ProductRow
  reviews : List ReviewRow
  deriving DecidableEq, Repr

/-- The `CHECK (rating BETWEEN 1 AND 5)` constraint on `reviews.rating`
(migration file, line 17). -/
def reviewsRatingCheck (rating : Int) : Bool :=
  decide (1 <= rating) && decide (rating <= 5)

/-- The `REFERENCES products(product_id)` constraint on `reviews.product_id`
(migration file, line 16). -/
def reviewsFkCheck (s : SchemaState) (product_id : Int) : Bool :=
  (List.find? (fun p => p.product_id == product_id) s.products).isSome

/-- Storage-level insert into the `reviews` table: the row is written only if
the CHECK constraint on `rating` and the foreign-key constraint on
`product_id` both hold; a violation is a storage-layer constraint error, not a
field-scoped validation error. -/
def insertReviewsRow (s : SchemaState) (row : ReviewRow) :
    Except GoError SchemaState :=
  if !(reviewsRatingCheck row.rating) then .error (.errOther 23514)
  else if !(reviewsFkCheck s row.product_id) then .error (.errOther 23503)
  else .ok { s with reviews := s.reviews ++ [row] }

/-- Storage-level delete of a `products` row: `ON DELETE CASCADE` (migration
file, line 16) removes every `reviews` row referencing the deleted product. -/
def deleteProductsRow (s : SchemaState) (product_id : Int) : SchemaState :=
  { products := s.products.filter (fun p => p.product_id != product_id),
    reviews := s.reviews.filter (fun r => r.product_id != product_id) }

/-- The decode target of `createReviewHandler` (cmd/api/review.go lines
16-21): every field arrives as pointer-or-nil. -/
structure IncomingReviewData where
  ProductID : Option Int
  Author : Option String
  Rating : Option Int
  ReviewText : Option String
  deriving DecidableEq, Repr

/-- Modelled from the spec (section 4.3, `ProductExists` not under `src/`):
`Exists(id)` returns a boolean and must not confuse zero rows with a storage
fault. -/
def ProductExists (db : List Row) (flt : Option Nat) (id : Int) :
    Except GoError Bool :=
  match flt with
  | some code => .error (.errOther code)
  | none => .ok (findRow db id).isSome

/-- Responses `createReviewHandler` can write (cmd/api/review.go lines
24-88). `panicked` is the nil-pointer dereference of an absent field. -/
inductive CreateReviewResponse where
  | badRequest
  | serverError
  | pridNotFound (id : Int)
  | failedValidation (errors : List (String × String))
  | created (review : Review)
  | panicked
  deriving DecidableEq, Repr

/-- `createReviewHandler` (cmd/api/review.go lines 24-88): decode, require
`product_id`, check product existence, build and validate the review, then
insert. The result carries the review table after the call and whether a
review row was written. -/
def createReviewHandler (productDB reviewDB : List Row)
    (fltExists fltInsert : Option Nat) (now : Int)
    (decoded : Option IncomingReviewData) :
    CreateReviewResponse × List Row × Bool :=
  match decoded with
  | none => (.badRequest, reviewDB, false)
  | some d =>
    match d.ProductID with
    | none => (.badRequest, reviewDB, false)
    | some pid =>
      match ProductExists productDB fltExists pid with
      | .error _ => (.serverError, reviewDB, false)
      | .ok false => (.pridNotFound pid, reviewDB, false)
      | .ok true =>
        match d.Author, d.Rating, d.ReviewText with
        | some authorVal, some ratingVal, some textVal =>
          let review : Review :=
            { ProductID := pid, Author := authorVal, Rating := ratingVal,
              ReviewText := textVal, HelpfulCount := 0, CreatedAt := now }
          let v := ValidateReview [] review
          if !(v.isEmpty) then (.failedValidation v, reviewDB, false)
          else
            match InsertReview reviewDB fltInsert now review with
            | .error _ => (.serverError, reviewDB, false)
            | .ok (db2, r2) => (.created r2, db2, true)
        | _, _, _ => (.panicked, reviewDB, false)

/-- The decode target of `updateReviewHandler` (cmd/api/review.go lines
204-208). -/
structure UpdateReviewPayload where
  Author : Option String
  Rating : Option Int
  ReviewText : Option String
  deriving DecidableEq, Repr

/-- Responses `updateReviewHandler` can write (cmd/api/review.go lines
184-251). -/
inductive UpdateReviewResponse where
  | notFound
  | badRequest
  | serverError
  | failedValidation (errors : List (String × String))
  | ok (review : Review)
  deriving DecidableEq, Repr

/-- `updateReviewHandler` (cmd/api/review.go lines 184-251): fetch the review,
merge the provided fields, validate, then update. The store may change between
the two storage calls (concurrent requests), so the states at the Get and at
the Update are separate arguments; the result carries the table after the
call. Any error from `UpdateReview` is surfaced through `serverErrorResponse`. -/
def updateReviewHandler (dbAtGet dbAtUpdate : List Row)
    (fltGet fltUpdate : Option Nat) (id : Int)
    (decoded : Option UpdateReviewPayload) :
    UpdateReviewResponse × List Row :=
  match (GetReview dbAtGet fltGet id).1 with
  | .error e =>
    (if e == .errRecordNotFound then .notFound else .serverError, dbAtUpdate)
  | .ok review =>
    match decoded with
    | none => (.badRequest, dbAtUpdate)
    | some d =>
      let merged :=
        { review with
          Author := d.Author.getD review.Author,
          Rating := d.Rating.getD review.Rating,
          ReviewText := d.ReviewText.getD review.ReviewText }
      let v := ValidateReview [] merged
      if !(v.isEmpty) then (.failedValidation v, dbAtUpdate)
      else
        match UpdateReview dbAtUpdate fltUpdate merged with
        | .error _ => (.serverError, dbAtUpdate)
        | .ok (db2, r2) => (.ok r2, db2)

/-- Responses `listProductHandler` can write (cmd/api/review.go, product half,
lines 547-604). `panicked` is the panic inside `sortColumn`. -/
inductive ListProductResponse where
  | failedValidation (errors : List (String × String))
  | serverError
  | ok (products : List Product) (metadata : Metadata)
  | panicked
  deriving DecidableEq, Repr

/-- The sort safelist `listProductHandler` declares (cmd/api/review.go lines
577-578). -/
def productSortSafeList : List String := ["id", "author", "-id", "-author"]

/-- `listProductHandler` (cmd/api/review.go, product half, lines 547-604):
builds the filters with the fixed safelist and default-able parameters, runs
`ValidateFilters`, and only on success calls `GetAllProducts`. The second
result is the SQL text of the query executed against storage, if any. -/
def listProductHandler (tsm : String → String → Bool) (db : List Row)
    (flt : Option Nat) (content author sortKey : String) (page pageSize : Int) :
    ListProductResponse × Option String :=
  let filters : Filters :=
    { Page := page, PageSize := pageSize, sort := sortKey,
      SortSafeList := productSortSafeList }
  let v := ValidateFilters [] filters
  if !(v.isEmpty) then (.failedValidation v, none)
  else
    match GetAllProducts tsm db flt content author filters with
    | none => (.panicked, none)
    | some (query, .error _) => (.serverError, some query)
    | some (query, .ok (products, metadata)) => (.ok products metadata, some query)

/-- Field-for-field conversion between the two identical data-layer structs
(used to state that the Product and Review variants return the same underlying
row content). -/
def productOfReview (r : Review) : Product :=
  { ID := r.ID, Content := r.Content, Author := r.Author,
    CreatedAt := r.CreatedAt, Version := r.Version }

/-- Field-for-field conversion from `Product` to the data-layer fields of
`Review`. -/
def reviewOfProduct (p : Product) : Review :=
  { ID := p.ID, Content := p.Content, Author := p.Author,
    CreatedAt := p.CreatedAt, Version := p.Version }

theorem validator_isEmpty_iff (v : Validator) : v.isEmpty = true ↔ v = [] := by
  cases v <;> simp [Validator.isEmpty]

theorem validator_check_nil {v : Validator} {ok : Bool} {k m : String}
    (h : Validator.check v ok k m = []) : v = [] ∧ ok = true := by
  cases ok with
  | true => exact ⟨h, rfl⟩
  | false =>
    exfalso
    unfold Validator.check Validator.addError at h
    simp only [Bool.false_eq_true, if_false] at h
    split at h
    · next hf => rw [h] at hf; simp [List.find?] at hf
    · simp at h

theorem validator_check_mem_key_of_false {v : Validator} {k m : String}
    (hok : Validator.check v false k m = v') :
    ∃ m2, (k, m2) ∈ v' := by
  subst hok
  unfold Validator.check Validator.addError
  simp only [Bool.false_eq_true, if_false]
  split
  · next hf =>
    obtain ⟨p, hp⟩ := Option.isSome_iff_exists.mp hf
    have hmem := List.mem_of_find?_eq_some hp
    have hkey : p.1 = k := by
      have := List.find?_some hp
      simpa using this
    exact ⟨p.2, by rw [← hkey]; exact hmem⟩
  · exact ⟨m, List.mem_append_right _ (List.mem_singleton.mpr rfl)⟩

theorem validateFilters_nil {f : Filters} (h : ValidateFilters [] f = []) :
    f.SortSafeList.contains f.sort = true := by
  unfold ValidateFilters at h
  exact (validator_check_nil h).2

theorem validateFilters_sort_error {f : Filters}
    (h : f.SortSafeList.contains f.sort = false) :
    ∃ m2, ("sort", m2) ∈ ValidateFilters [] f := by
  unfold ValidateFilters
  rw [h]
  exact validator_check_mem_key_of_false rfl

theorem validateFilters_notnil_of_sort {f : Filters}
    (h : f.SortSafeList.contains f.sort = false) :
    ValidateFilters [] f ≠ [] := by
  intro hnil
  rw [validateFilters_nil hnil] at h
  cases h

theorem findRow_filter_ne (db : List Row) (id : Int) :
    findRow (db.filter (fun r => r.id != id)) id = none := by
  rw [findRow, List.find?_eq_none]
  intro x hx
  rw [List.mem_filter] at hx
  simpa using hx.2

theorem filter_len_zero_iff (db : List Row) (id : Int) :
    ((db.filter (fun r => r.id == id)).length = 0) ↔ findRow db id = none := by
  rw [List.length_eq_zero, List.filter_eq_nil_iff, findRow, List.find?_eq_none]

theorem filter_len_ne_zero_of_findRow {db : List Row} {id : Int} {row : Row}
    (h : findRow db id = some row) :
    ((db.filter (fun r => r.id == id)).length = 0) = False := by
  simp only [eq_iff_iff, iff_false]
  intro hzero
  rw [filter_len_zero_iff] at hzero
  rw [h] at hzero
  cases hzero

theorem findRow_sqlUpdate (db : List Row) (c a : String) (id : Int) :
    findRow (sqlUpdateById db c a id).1 id =
      (findRow db id).map
        (fun r => { r with content := c, author := a, version := r.version + 1 }) := by
  unfold sqlUpdateById findRow
  induction db with
  | nil => rfl
  | cons r rest ih =>
    simp only [List.map_cons, List.find?_cons]
    cases hr : r.id == id with
    | true => simp [hr]
    | false => simpa [hr] using ih

theorem ceil_div_bounds {tr ps : Int} (htr : 1 ≤ tr) (hps : 1 ≤ ps) :
    tr ≤ ((tr + ps - 1) / ps) * ps ∧ ((tr + ps - 1) / ps - 1) * ps < tr := by
  have h0 : ps ≠ 0 := by omega
  have hlt : (0 : Int) < ps := by omega
  have heq := Int.ediv_add_emod (tr + ps - 1) ps
  have hnn := Int.emod_nonneg (tr + ps - 1) h0
  have hub := Int.emod_lt_of_pos (tr + ps - 1) hlt
  constructor
  · nlinarith
  · nlinarith

/-- C3: the Pagination Calculator is a pure function of (totalRecords, page,
pageSize); for totalRecords = 0 it returns the all-zero metadata value;
otherwise it returns currentPage = page, pageSize, firstPage = 1, lastPage =
ceil(totalRecords / pageSize) (characterized by totalRecords ≤ lastPage *
pageSize < totalRecords + pageSize), and totalRecords; in particular
totalRecords=25, page=2, pageSize=10 gives {2, 10, 1, 3, 25} and the
limit/offset for those filters are 10 and 10. -/
theorem pagination_calculator_contract (totalRecords page pageSize : Int)
    (htr : 0 ≤ totalRecords) (hpage : 1 ≤ page) (hps : 1 ≤ pageSize) :
    calculateMetaData 0 page pageSize = {} ∧
    (1 ≤ totalRecords →
      (calculateMetaData totalRecords page pageSize).CurrentPage = page ∧
      (calculateMetaData totalRecords page pageSize).PageSize = pageSize ∧
      (calculateMetaData totalRecords page pageSize).FirstPage = 1 ∧
      (calculateMetaData totalRecords page pageSize).TotalRecords = totalRecords ∧
      totalRecords ≤ (calculateMetaData totalRecords page pageSize).LastPage * pageSize ∧
      ((calculateMetaData totalRecords page pageSize).LastPage - 1) * pageSize < totalRecords) ∧
    calculateMetaData 25 2 10 =
      { CurrentPage := 2, PageSize := 10, FirstPage := 1, LastPage := 3,
        TotalRecords := 25 } ∧
    Filters.limit
      { Page := 2, PageSize := 10, sort := "id", SortSafeList := productSortSafeList } = 10 ∧
    Filters.offset
      { Page := 2, PageSize := 10, sort := "id", SortSafeList := productSortSafeList } = 10 := by
  refine ⟨by rfl, ?_, by decide, by decide, by decide⟩
  intro h1
  have hne : (totalRecords == 0) = false := by
    rw [beq_eq_false_iff_ne]
    omega
  simp only [calculateMetaData, hne, if_false]
  have hb := ceil_div_bounds h1 hps
  exact ⟨rfl, rfl, rfl, rfl, hb.1, hb.2⟩

/-- C3 witness: the theorem applied at totalRecords=25, page=2, pageSize=10. -/
theorem pagination_calculator_contract_witness :
    calculateMetaData 25 2 10 =
      { CurrentPage := 2, PageSize := 10, FirstPage := 1, LastPage := 3,
        TotalRecords := 25 } ∧
    (25 : Int) ≤ (calculateMetaData 25 2 10).LastPage * 10 :=
  ⟨(pagination_calculator_contract 25 2 10 (by decide) (by decide) (by decide)).2.2.1,
   ((pagination_calculator_contract 25 2 10 (by decide) (by decide) (by decide)).2.1
     (by decide)).2.2.2.2.1⟩

/-- C5: Get(id) with id < 1 returns RecordNotFound without issuing any storage
query; with id ≥ 1 and no matching row it returns RecordNotFound (having
queried); any other storage error propagates unchanged as a storage fault; and
RecordNotFound is distinct from every storage fault. Both GetReview and
GetProduct satisfy this. -/
theorem get_notfound_contract (db : List Row) (id : Int) :
    (∀ flt, id < 1 →
      GetReview db flt id = (.error .errRecordNotFound, false) ∧
      GetProduct db flt id = (.error .errRecordNotFound, false)) ∧
    (1 ≤ id → findRow db id = none →
      GetReview db none id = (.error .errRecordNotFound, true) ∧
      GetProduct db none id = (.error .errRecordNotFound, true)) ∧
    (∀ code, 1 ≤ id →
      GetReview db (some code) id = (.error (.errOther code), true) ∧
      GetProduct db (some code) id = (.error (.errOther code), true)) ∧
    (∀ code, GoError.errRecordNotFound ≠ GoError.errOther code) := by
  refine ⟨?_, ?_, ?_, ?_⟩
  · intro flt hid
    constructor <;> simp [GetReview, GetProduct, hid]
  · intro hid hnone
    have hlt : ¬ (id < 1) := by omega
    constructor <;>
      simp [GetReview, GetProduct, hlt, queryRowById, hnone]
  · intro code hid
    have hlt : ¬ (id < 1) := by omega
    constructor <;> simp [GetReview, GetProduct, hlt, queryRowById]
  · intro code h
    cases h

/-- C5 witness: the theorem applied at id = 0 (no query issued), id = 1 on an
empty table (RecordNotFound after querying), and id = 1 under an injected
storage fault (propagates unchanged). -/
theorem get_notfound_contract_witness :
    GetReview [] none 0 = (.error .errRecordNotFound, false) ∧
    GetReview [] none 1 = (.error .errRecordNotFound, true) ∧
    GetReview [] (some 7) 1 = (.error (.errOther 7), true) :=
  ⟨((get_notfound_contract [] 0).1 none (by decide)).1,
   ((get_notfound_contract [] 1).2.1 (by decide) (by rfl)).1,
   ((get_notfound_contract [] 1).2.2.1 7 (by decide)).1⟩

/-- C6: Delete(id) with id < 1 returns RecordNotFound without issuing any
storage query; a delete affecting zero rows (nonexistent or already deleted
id) returns RecordNotFound; deleting the same existing id twice succeeds on
the first call and yields RecordNotFound on the second; and at the
storage-constraint level (reviews DDL, ON DELETE CASCADE) deleting a products
row removes every reviews row referencing it. -/
theorem delete_notfound_and_cascade (db : List Row) (id : Int) :
    (∀ flt, id < 1 →
      DeleteReview db flt id = (.error .errRecordNotFound, false) ∧
      DeleteProduct db flt id = (.error .errRecordNotFound, false)) ∧
    (1 ≤ id → findRow db id = none →
      DeleteReview db none id = (.error .errRecordNotFound, true)) ∧
    (∀ row, 1 ≤ id → findRow db id = some row →
      DeleteReview db none id = (.ok (db.filter (fun r => r.id != id)), true) ∧
      DeleteReview (db.filter (fun r => r.id != id)) none id =
        (.error .errRecordNotFound, true)) ∧
    (∀ (s : SchemaState) (pid : Int),
      (∀ p ∈ (deleteProductsRow s pid).products, p.product_id ≠ pid) ∧
      (∀ r ∈ (deleteProductsRow s pid).reviews, r.product_id ≠ pid)) := by
  refine ⟨?_, ?_, ?_, ?_⟩
  · intro flt hid
    constructor <;> simp [DeleteReview, DeleteProduct, hid]
  · intro hid hnone
    have hlt : ¬ (id < 1) := by omega
    have hz : ((db.filter (fun r => r.id == id)).length = 0) :=
      (filter_len_zero_iff db id).mpr hnone
    simp [DeleteReview, hlt, sqlDeleteById, hz]
  · intro row hid hrow
    have hlt : ¬ (id < 1) := by omega
    have hnz := filter_len_ne_zero_of_findRow hrow
    have hz2 : (((db.filter (fun r => r.id != id)).filter
        (fun r => r.id == id)).length = 0) :=
      (filter_len_zero_iff _ id).mpr (findRow_filter_ne db id)
    constructor
    · simp [DeleteReview, hlt, sqlDeleteById, hnz]
    · simp [DeleteReview, hlt, sqlDeleteById, hz2]
  · intro s pid
    constructor
    · intro p hp
      rw [deleteProductsRow, List.mem_filter] at hp
      simpa using hp.2
    · intro r hr
      rw [deleteProductsRow, List.mem_filter] at hr
      simpa using hr.2

/-- C6 witness: the theorem applied at a one-row table with id 1: the delete
succeeds once, and the repeated delete on the resulting table yields
RecordNotFound; id 0 is rejected without querying; and the DDL-level cascade
leaves no review referencing the deleted product. -/
theorem delete_notfound_and_cascade_witness :
    DeleteReview [Row.mk 1 0 "c" "a" 1] none 0 = (.error .errRecordNotFound, false) ∧
    DeleteReview [Row.mk 1 0 "c" "a" 1] none 1 = (.ok [], true) ∧
    DeleteReview [] none 1 = (.error .errRecordNotFound, true) ∧
    ∀ r ∈ (deleteProductsRow
        (SchemaState.mk [ProductRow.mk 4 "" "" "" "" 0 0 0 1]
          [ReviewRow.mk 1 4 3 "" 0 0 0 1]) 4).reviews,
      r.product_id ≠ 4 := by
  refine ⟨?_, ?_, ?_, ?_⟩
  · exact ((delete_notfound_and_cascade [Row.mk 1 0 "c" "a" 1] 0).1 none (by decide)).1
  · have h := ((delete_notfound_and_cascade [Row.mk 1 0 "c" "a" 1] 1).2.2.1
      (Row.mk 1 0 "c" "a" 1) (by decide) (by rfl)).1
    simpa using h
  · exact (delete_notfound_and_cascade ([] : List Row) 1).2.1 (by decide) (by rfl)
  · exact ((delete_notfound_and_cascade ([] : List Row) 1).2.2.2
      (SchemaState.mk [ProductRow.mk 4 "" "" "" "" 0 0 0 1]
        [ReviewRow.mk 1 4 3 "" 0 0 0 1]) 4).2

/-- C2 counterexample: the claim's optimistic-concurrency half fails on the
code. The stored row has version 5; the caller presents version 1 (a
non-matching version it never read); the update nonetheless succeeds, because
the UPDATE's WHERE clause matches on id alone. -/
theorem update_version_check_counterexample :
    (1 : Int) ≠ 5 ∧
    UpdateReview
      [{ id := 1, created_at := 0, content := "c", author := "a", version := 5 }]
      none { ID := 1, Content := "x", Author := "y", Version := 1 } =
      .ok ([{ id := 1, created_at := 0, content := "x", author := "y", version := 6 }],
        { ID := 1, Content := "x", Author := "y", Version := 6 }) := by
  exact ⟨by decide, by rfl⟩

/-- C2 amended: every successful Update increments the stored version counter
by exactly 1 (the RETURNING value and the stored row both carry the old
version + 1), for Review and Product alike; but the update is keyed on id
alone — its outcome is independent of the version the caller presents, so no
optimistic-concurrency check takes place. -/
theorem update_version_increment (db : List Row) :
    (∀ (review : Review) (row : Row), findRow db review.ID = some row →
      UpdateReview db none review =
        .ok ((sqlUpdateById db review.Content review.Author review.ID).1,
             { review with Version := row.version + 1 }) ∧
      findRow (sqlUpdateById db review.Content review.Author review.ID).1 review.ID =
        some { row with content := review.Content, author := review.Author,
                        version := row.version + 1 }) ∧
    (∀ (product : Product) (row : Row), findRow db product.ID = some row →
      UpdateProduct db none product =
        .ok ((sqlUpdateById db product.Content product.Author product.ID).1,
             { product with Version := row.version + 1 })) ∧
    (∀ (review : Review) (v2 : Int),
      UpdateReview db none { review with Version := v2 } =
        UpdateReview db none review) := by
  refine ⟨?_, ?_, ?_⟩
  · intro review row hrow
    have hsnd : (sqlUpdateById db review.Content review.Author review.ID).2
        = some (row.version + 1) := by
      unfold sqlUpdateById
      rw [hrow]
      rfl
    constructor
    · simp only [UpdateReview, hsnd]
    · rw [findRow_sqlUpdate, hrow]
      rfl
  · intro product row hrow
    have hsnd : (sqlUpdateById db product.Content product.Author product.ID).2
        = some (row.version + 1) := by
      unfold sqlUpdateById
      rw [hrow]
      rfl
    simp only [UpdateProduct, hsnd]
  · intro review v2
    rfl

/-- C2 witness: the amended theorem applied at a one-row table: updating the
row stored at version 5 succeeds with version 6 both in the RETURNING value
and in the stored row. -/
theorem update_version_increment_witness :
    UpdateReview
      [{ id := 1, created_at := 0, content := "c", author := "a", version := 5 }]
      none { ID := 1, Content := "x", Author := "y", Version := 5 } =
      .ok ([{ id := 1, created_at := 0, content := "x", author := "y", version := 6 }],
        { ID := 1, Content := "x", Author := "y", Version := 6 }) ∧
    findRow [{ id := 1, created_at := 0, content := "x", author := "y", version := 6 }] 1 =
      some { id := 1, created_at := 0, content := "x", author := "y", version := 6 } := by
  have h := (update_version_increment
    [{ id := 1, created_at := 0, content := "c", author := "a", version := 5 }]).1
    { ID := 1, Content := "x", Author := "y", Version := 5 }
    { id := 1, created_at := 0, content := "c", author := "a", version := 5 }
    (by rfl)
  exact ⟨by simpa using h.1, by rfl⟩

/-- C4 counterexample: the claim fails on the code. When the target row no
longer exists (row id 1 was deleted between the handler's Get and its Update),
`UpdateReview` returns the raw scan error `sql.ErrNoRows` — not
`ErrRecordNotFound` — and the update handler surfaces it through
`serverErrorResponse`, i.e. as a storage fault, not as RecordNotFound or an
EditConflict. -/
theorem update_vanished_row_counterexample :
    UpdateReview [] none { ID := 1, Content := "x", Author := "y", Version := 1 } =
      .error .errSqlNoRows ∧
    GoError.errSqlNoRows ≠ GoError.errRecordNotFound ∧
    updateReviewHandler [Row.mk 1 0 "great" "bob" 5] [] none none 1
      (some (UpdateReviewPayload.mk none none none)) =
      (.serverError, []) := by
  exact ⟨by rfl, by decide, by rfl⟩

/-- C4 amended: when the target row no longer exists (zero rows affected, e.g.
deleted concurrently), UpdateReview and UpdateProduct return the scan error
`sql.ErrNoRows` unchanged rather than RecordNotFound or an EditConflict, and
the update handler surfaces that outcome through its server-error (storage
fault) branch. -/
theorem update_vanished_row_surfaces_fault (db dbAtGet : List Row) (id : Int) :
    (∀ review : Review, findRow db review.ID = none →
      UpdateReview db none review = .error .errSqlNoRows) ∧
    (∀ product : Product, findRow db product.ID = none →
      UpdateProduct db none product = .error .errSqlNoRows) ∧
    (∀ row : Row, 1 ≤ id → findRow dbAtGet id = some row →
      ValidateReview []
        (Review.mk row.id 0 row.content row.author 0 "" 0 row.created_at row.version) = [] →
      findRow db row.id = none →
      updateReviewHandler dbAtGet db none none id
        (some (UpdateReviewPayload.mk none none none)) = (.serverError, db)) := by
  have hupd : ∀ (c a : String) (i : Int), findRow db i = none →
      (sqlUpdateById db c a i).2 = none := by
    intro c a i h
    unfold sqlUpdateById
    rw [h]
    rfl
  refine ⟨?_, ?_, ?_⟩
  · intro review hnone
    simp only [UpdateReview, hupd review.Content review.Author review.ID hnone]
  · intro product hnone
    simp only [UpdateProduct, hupd product.Content product.Author product.ID hnone]
  · intro row hid hget hvalid hnone
    have hlt : ¬ (id < 1) := by omega
    unfold updateReviewHandler GetReview queryRowById
    rw [if_neg hlt, hget]
    simp only [Option.getD_none]
    rw [hvalid]
    simp only [Validator.isEmpty, Bool.not_true, Bool.false_eq_true, if_false]
    simp only [UpdateReview, hupd row.content row.author row.id hnone]

/-- C4 amended witness: the theorem applied with the one-row table at the Get
and the empty table at the Update (the row vanished in between): the update
returns `sql.ErrNoRows` and the handler answers with the server-error
response. -/
theorem update_vanished_row_surfaces_fault_witness :
    UpdateReview [] none ({ ID := 3, Content := "x", Author := "y" } : Review) =
      .error .errSqlNoRows ∧
    updateReviewHandler [Row.mk 1 0 "great" "bob" 5] [] none none 1
      (some (UpdateReviewPayload.mk none none none)) = (.serverError, []) :=
  ⟨(update_vanished_row_surfaces_fault [] [] 3).1
      { ID := 3, Content := "x", Author := "y" } (by rfl),
   (update_vanished_row_surfaces_fault [] [Row.mk 1 0 "great" "bob" 5] 1).2.2
      (Row.mk 1 0 "great" "bob" 5) (by decide) (by rfl) (by rfl) (by rfl)⟩

/-- C7 counterexample: the claim fails on the code. `ValidateReview` imposes
no constraint on the rating, so a review input with rating 6 (outside [1,5])
passes validation with no field-scoped error, and the update path carries it
all the way to the storage UPDATE; only the DDL-level CHECK constraint (which
rejects 6) stands between such input and a persisted row. -/
theorem rating_range_counterexample :
    ValidateReview [] { Content := "great", Author := "bob", Rating := 6 } = [] ∧
    reviewsRatingCheck 6 = false ∧
    updateReviewHandler [Row.mk 1 0 "great" "bob" 5] [Row.mk 1 0 "great" "bob" 5]
      none none 1 (some (UpdateReviewPayload.mk none (some 6) none)) =
      (.ok (Review.mk 1 0 "great" "bob" 6 "" 0 0 6), [Row.mk 1 0 "great" "bob" 6]) := by
  exact ⟨by rfl, by rfl, by rfl⟩

/-- C7 amended: the validation layer is rating-blind (its outcome is
unchanged by any rating value), so out-of-range ratings are not rejected
before storage; the [1,5] range is enforced only by the reviews-table CHECK
constraint of the DDL: a storage-level insert succeeds only for ratings in
[1,5] (preserving the all-rows-in-range invariant), and an out-of-range rating
fails there as a storage-level constraint violation, not as a field-scoped
ValidationError. -/
theorem rating_range_storage_enforced (v : Validator) (review : Review) (x : Int)
    (s : SchemaState) (row : ReviewRow) :
    ValidateReview v { review with Rating := x } = ValidateReview v review ∧
    (∀ s2, insertReviewsRow s row = .ok s2 →
      reviewsRatingCheck row.rating = true ∧
      ((∀ r ∈ s.reviews, reviewsRatingCheck r.rating = true) →
        ∀ r ∈ s2.reviews, reviewsRatingCheck r.rating = true)) ∧
    (reviewsRatingCheck x = false →
      insertReviewsRow s { row with rating := x } = .error (.errOther 23514)) := by
  refine ⟨rfl, ?_, ?_⟩
  · intro s2 hok
    unfold insertReviewsRow at hok
    split at hok
    · cases hok
    · split at hok
      · cases hok
      · next hc _ =>
        have hrc : reviewsRatingCheck row.rating = true := by
          cases h : reviewsRatingCheck row.rating
          · rw [h] at hc; cases hc rfl
          · rfl
        refine ⟨hrc, ?_⟩
        intro hinv r hr
        cases hok
        rw [List.mem_append] at hr
        cases hr with
        | inl hmem => exact hinv r hmem
        | inr hsingle =>
          rw [List.mem_singleton] at hsingle
          rw [hsingle]
          exact hrc
  · intro hx
    unfold insertReviewsRow
    have hneg : (!(reviewsRatingCheck ({ row with rating := x } : ReviewRow).rating)) = true := by
      show (!(reviewsRatingCheck x)) = true
      rw [hx]
      rfl
    rw [if_pos hneg]

/-- C7 amended witness: the theorem applied at rating 6: validation is
unchanged by the rating, and the storage insert of a rating-6 row fails with
the constraint-violation storage error. -/
theorem rating_range_storage_enforced_witness :
    ValidateReview [] { Content := "great", Author := "bob", Rating := (6:Int) } =
      ValidateReview [] { Content := "great", Author := "bob", Rating := (0:Int) } ∧
    insertReviewsRow (SchemaState.mk [ProductRow.mk 4 "" "" "" "" 0 0 0 1] [])
      (ReviewRow.mk 1 4 6 "" 0 0 0 1) = .error (.errOther 23514) := by
  constructor
  · exact (rating_range_storage_enforced []
      { Content := "great", Author := "bob", Rating := (0:Int) } 6
      (SchemaState.mk [] []) (ReviewRow.mk 1 4 3 "" 0 0 0 1)).1
  · exact (rating_range_storage_enforced []
      { Content := "great", Author := "bob", Rating := (0:Int) } 6
      (SchemaState.mk [ProductRow.mk 4 "" "" "" "" 0 0 0 1] [])
      (ReviewRow.mk 1 4 3 "" 0 0 0 1)).2.2 (by decide)

/-- C8: creating a Review whose product reference does not resolve to a live
Product is rejected before any row is written: a missing `product_id` is a bad
request, a `product_id` whose existence check finds no product yields the
product-not-found response, and in both cases the review table is unchanged
and nothing was written; conversely, whenever a review row was written, the
existence check had resolved the referenced product (no orphan review is ever
persisted). -/
theorem review_requires_live_product (productDB reviewDB : List Row)
    (fltInsert : Option Nat) (now : Int) (d : IncomingReviewData) (pid : Int) :
    (d.ProductID = some pid → findRow productDB pid = none →
      createReviewHandler productDB reviewDB none fltInsert now (some d) =
        (.pridNotFound pid, reviewDB, false)) ∧
    (d.ProductID = none →
      createReviewHandler productDB reviewDB none fltInsert now (some d) =
        (.badRequest, reviewDB, false)) ∧
    (∀ res db2,
      createReviewHandler productDB reviewDB none fltInsert now (some d) =
        (res, db2, true) →
      ∃ pid2, d.ProductID = some pid2 ∧ (findRow productDB pid2).isSome = true) := by
  refine ⟨?_, ?_, ?_⟩
  · intro hpid hnone
    simp only [createReviewHandler, ProductExists, hpid, hnone, Option.isSome_none]
  · intro hpid
    simp only [createReviewHandler, hpid]
  · intro res db2 h
    simp only [createReviewHandler, ProductExists] at h
    cases hpid : d.ProductID with
    | none => rw [hpid] at h; cases h
    | some pid2 =>
      refine ⟨pid2, rfl, ?_⟩
      cases hex : (findRow productDB pid2).isSome with
      | true => rfl
      | false =>
        exfalso
        simp only [hpid, hex] at h
        simp [Prod.ext_iff] at h

/-- C8 witness: the theorem applied at a store without product 42: the create
request referencing product 42 is answered with the product-not-found
response and no review row is written. -/
theorem review_requires_live_product_witness :
    createReviewHandler [] [] none none 7
      (some (IncomingReviewData.mk (some 42) (some "bob") (some 3) (some "t"))) =
      (.pridNotFound 42, [], false) :=
  (review_requires_live_product [] [] none 7
    (IncomingReviewData.mk (some 42) (some "bob") (some 3) (some "t")) 42).1
    (by rfl) (by rfl)

/-- C9: with an empty search term for every filterable column, the WHERE
predicate accepts every row (the `OR $n = ''` disjunct short-circuits the
text-search match), so both GetAll queries return the full, unfiltered
collection, sorted and paginated, with the window count equal to the size of
the whole collection (left at zero by the scan loop only when the requested
page is past the data). -/
theorem empty_search_returns_all (tsm : String → String → Bool) (db : List Row)
    (filters : Filters) (col : String) (hcol : filters.sortColumn = some col) :
    (∀ r : Row, getAllWhere tsm "" "" r = true) ∧
    db.filter (getAllWhere tsm "" "") = db ∧
    GetAllReviews tsm db none "" "" filters =
      some (getAllReviewsQuery col filters.sortDirection, .ok
        ((((sortRows (rowLe col filters.sortDirection) db).drop
            filters.offset.toNat).take filters.limit.toNat).map
          (fun r => Review.mk r.id 0 r.content r.author 0 "" 0 r.created_at r.version),
         calculateMetaData
           (if (((sortRows (rowLe col filters.sortDirection) db).drop
               filters.offset.toNat).take filters.limit.toNat).isEmpty then 0
            else db.length)
           filters.Page filters.PageSize)) ∧
    GetAllProducts tsm db none "" "" filters =
      some (getAllProductsQuery col filters.sortDirection, .ok
        ((((sortRows (rowLe col filters.sortDirection) db).drop
            filters.offset.toNat).take filters.limit.toNat).map
          (fun r => Product.mk r.id r.content r.author r.created_at r.version),
         calculateMetaData
           (if (((sortRows (rowLe col filters.sortDirection) db).drop
               filters.offset.toNat).take filters.limit.toNat).isEmpty then 0
            else db.length)
           filters.Page filters.PageSize)) := by
  have hemp : (("" == "") : Bool) = true := rfl
  have hall : ∀ r : Row, getAllWhere tsm "" "" r = true := by
    intro r
    unfold getAllWhere tsFilterMatch
    rw [hemp]
    simp
  have hfilter : db.filter (getAllWhere tsm "" "") = db :=
    List.filter_eq_self.mpr (fun a _ => hall a)
  refine ⟨hall, hfilter, ?_, ?_⟩
  · simp only [GetAllReviews, hcol, hfilter]
  · simp only [GetAllProducts, hcol, hfilter]

/-- C9 witness: the theorem applied to a one-row table with empty search
terms, page 1, page size 10, sort key id: the full collection comes back with
a window count of 1. -/
theorem empty_search_returns_all_witness :
    GetAllReviews (fun _ _ => false) [Row.mk 1 0 "a" "b" 1] none "" ""
      (Filters.mk 1 10 "id" productSortSafeList) =
      some (getAllReviewsQuery "id" "ASC",
        .ok ([Review.mk 1 0 "a" "b" 0 "" 0 0 1], Metadata.mk 1 10 1 1 1)) := by
  have h := (empty_search_returns_all (fun _ _ => false) [Row.mk 1 0 "a" "b" 1]
    (Filters.mk 1 10 "id" productSortSafeList) "id" (by decide)).2.2.1
  rw [h]
  rfl

/-- C1: a requested sort key outside the product list handler's safelist is
answered by a field-scoped validation error on "sort" with no query text ever
generated (ValidationError before any query executes); and whenever the
handler does execute a query, the requested sort key was a member of the
safelist and the query text is exactly the GetAll statement built from that
safelist-validated key's column and direction. -/
theorem sort_safelist_validation (tsm : String → String → Bool) (db : List Row)
    (flt : Option Nat) (content author sortKey : String) (page pageSize : Int) :
    (productSortSafeList.contains sortKey = false →
      ∃ errs, listProductHandler tsm db flt content author sortKey page pageSize =
          (.failedValidation errs, none) ∧ ∃ m2, ("sort", m2) ∈ errs) ∧
    (∀ q, (listProductHandler tsm db flt content author sortKey page pageSize).2 =
        some q →
      productSortSafeList.contains sortKey = true ∧
      q = getAllProductsQuery (trimLeadingDash sortKey)
            (Filters.sortDirection (Filters.mk page pageSize sortKey productSortSafeList))) := by
  constructor
  · intro hout
    have hne : ValidateFilters []
        (Filters.mk page pageSize sortKey productSortSafeList) ≠ [] :=
      validateFilters_notnil_of_sort hout
    have hie : (ValidateFilters []
        (Filters.mk page pageSize sortKey productSortSafeList)).isEmpty = false := by
      cases hv : ValidateFilters [] (Filters.mk page pageSize sortKey productSortSafeList) with
      | nil => exact absurd hv hne
      | cons a as => rfl
    refine ⟨ValidateFilters [] (Filters.mk page pageSize sortKey productSortSafeList),
      ?_, ?_⟩
    · simp only [listProductHandler, hie, Bool.not_false, if_true]
    · exact validateFilters_sort_error hout
  · intro q hq
    cases hie : (ValidateFilters []
        (Filters.mk page pageSize sortKey productSortSafeList)).isEmpty with
    | false =>
      exfalso
      simp only [listProductHandler, hie, Bool.not_false, if_true] at hq
      cases hq
    | true =>
      have hnil := (validator_isEmpty_iff _).mp hie
      have hcontains := validateFilters_nil hnil
      have hcol : (Filters.mk page pageSize sortKey productSortSafeList).sortColumn =
          some (trimLeadingDash sortKey) := by
        unfold Filters.sortColumn
        rw [hcontains]
        rfl
      refine ⟨hcontains, ?_⟩
      simp only [listProductHandler, hie, Bool.not_true, Bool.false_eq_true, if_false,
        GetAllProducts, hcol] at hq
      cases flt with
      | some code =>
        simp only [Option.some.injEq] at hq
        exact hq.symm
      | none =>
        simp only [Option.some.injEq] at hq
        exact hq.symm

/-- C1 witness: the theorem applied at the out-of-safelist key "version"
(validation error on "sort", no query) and at the safelist key "author" (the
executed query text is the one built from the safelist-validated column and
direction). -/
theorem sort_safelist_validation_witness :
    (∃ errs, listProductHandler (fun _ _ => false) [] none "" "" "version" 1 10 =
        (.failedValidation errs, none) ∧ ∃ m2, ("sort", m2) ∈ errs) ∧
    (productSortSafeList.contains "author" = true ∧
      getAllProductsQuery "author" "ASC" =
        getAllProductsQuery (trimLeadingDash "author")
          (Filters.sortDirection (Filters.mk 1 10 "author" productSortSafeList))) :=
  ⟨(sort_safelist_validation (fun _ _ => false) [] none "" "" "version" 1 10).1
      (by decide),
   (sort_safelist_validation (fun _ _ => false) [] none "" "" "author" 1 10).2
      (getAllProductsQuery "author" "ASC") (by decide)⟩

/-- C10 counterexample: the claim's "character-for-character identical SQL"
fails for the GetAll pair: with the same safelist-validated column and
direction interpolated, the two GetAll query texts are different strings
(their WHERE clauses are broken across lines differently). -/
theorem getall_query_text_differs :
    getAllReviewsQuery "id" "ASC" ≠ getAllProductsQuery "id" "ASC" := by decide

/-- C10 amended: every ProductModel operation and its ReviewModel counterpart
run against the single table `comments`: the Insert, Get, Update and Delete
SQL texts are character-for-character identical, the two GetAll texts have
identical token sequences (they differ only in whitespace), each query names
`comments`, and over any table state and arguments the Product variant and the
Review variant of each operation perform the same state change and return the
same underlying row content (equal field-for-field under
`productOfReview`/`reviewOfProduct`). -/
theorem models_single_comments_table :
    insertReviewQuery = insertProductQuery ∧
    getReviewQuery = getProductQuery ∧
    updateReviewQuery = updateProductQuery ∧
    deleteReviewQuery = deleteProductQuery ∧
    (∀ col dir, col ∈ ["id", "author"] → dir ∈ ["ASC", "DESC"] →
      sqlTokens (getAllReviewsQuery col dir) = sqlTokens (getAllProductsQuery col dir)) ∧
    ("comments" ∈ sqlTokens insertReviewQuery ∧
     "comments" ∈ sqlTokens getReviewQuery ∧
     "comments" ∈ sqlTokens updateReviewQuery ∧
     "comments" ∈ sqlTokens deleteReviewQuery ∧
     "comments" ∈ sqlTokens (getAllReviewsQuery "id" "ASC") ∧
     "comments" ∈ sqlTokens (getAllProductsQuery "id" "ASC")) ∧
    (∀ db flt i, GetProduct db flt i =
      ((GetReview db flt i).1.map productOfReview, (GetReview db flt i).2)) ∧
    (∀ db flt i, DeleteProduct db flt i = DeleteReview db flt i) ∧
    (∀ db flt (p : Product), UpdateProduct db flt p =
      (UpdateReview db flt (reviewOfProduct p)).map
        (fun x => (x.1, productOfReview x.2))) ∧
    (∀ db flt now (p : Product), InsertProduct db flt now p =
      (InsertReview db flt now (reviewOfProduct p)).map
        (fun x => (x.1, productOfReview x.2))) ∧
    (∀ tsm db flt c a f,
      Option.map (fun x => Except.map (fun y => (y.1.map productOfReview, y.2)) x.2)
          (GetAllReviews tsm db flt c a f) =
        Option.map (fun x => x.2) (GetAllProducts tsm db flt c a f)) := by
  refine ⟨rfl, rfl, rfl, rfl, ?_, by decide, ?_, ?_, ?_, ?_, ?_⟩
  · intro col dir hcol hdir
    simp only [List.mem_cons, List.mem_singleton, List.not_mem_nil, or_false] at hcol hdir
    rcases hcol with h1 | h1 <;> rcases hdir with h2 | h2 <;> subst h1 <;> subst h2 <;>
      decide
  · intro db flt i
    unfold GetProduct GetReview
    by_cases h : i < 1
    · simp [h, Except.map]
    · simp only [h, if_false]
      cases hq : queryRowById db flt i <;> simp [productOfReview, Except.map]
  · intro db flt i
    rfl
  · intro db flt p
    cases flt with
    | some code => rfl
    | none =>
      simp only [UpdateProduct, UpdateReview, reviewOfProduct]
      cases h : (sqlUpdateById db p.Content p.Author p.ID).2 with
      | none => simp [h, Except.map]
      | some v => simp [h, Except.map, productOfReview]
  · intro db flt now p
    cases flt with
    | some code => rfl
    | none =>
      simp [InsertProduct, InsertReview, reviewOfProduct, Except.map, productOfReview]
  · intro tsm db flt c a f
    cases hcol : f.sortColumn with
    | none => simp [GetAllReviews, GetAllProducts, hcol]
    | some col =>
      cases flt with
      | some code => simp [GetAllReviews, GetAllProducts, hcol, Except.map]
      | none =>
        simp only [GetAllReviews, GetAllProducts, hcol, Option.map, Except.map,
          List.map_map]
        rfl

/-- C10 amended witness: the theorem applied at column id, direction ASC
(token-identical GetAll texts) and at a concrete Get call (same row content
from both variants). -/
theorem models_single_comments_table_witness :
    sqlTokens (getAllReviewsQuery "id" "ASC") =
      sqlTokens (getAllProductsQuery "id" "ASC") ∧
    GetProduct [Row.mk 1 0 "a" "b" 1] none 1 =
      ((GetReview [Row.mk 1 0 "a" "b" 1] none 1).1.map productOfReview,
       (GetReview [Row.mk 1 0 "a" "b" 1] none 1).2) :=
  ⟨models_single_comments_table.2.2.2.2.1 "id" "ASC" (by decide) (by decide),
   models_single_comments_table.2.2.2.2.2.2.1 [Row.mk 1 0 "a" "b" 1] none 1⟩
